import Mathlib

/-!
Verification of the StackIt Q&A application (question listing, question
submission form, question detail page with answer/vote/accept flows) against
its natural-language specification.

The remote store (Postgres tables `questions`, `answers`) is embedded as lists
of rows; each supabase mutation of the pages is embedded as an explicit state
transformer on that store, translated statement by statement from the page
components, together with the client-side handlers that guard them.
-/

namespace StackIt

/-- A row of the `questions` table, fields as in the migration and the
`Question` interface of the pages (nullable columns are `Option`). The
`created_at` timestamp is abstracted as a `Nat`. -/
structure Question where
  id : String
  title : String
  description : String
  tags : Option (List String)
  author_name : String
  user_id : Option String
  created_at : Nat
  votes : Option Int
  views : Option Int
  has_accepted_answer : Option Bool
deriving DecidableEq, Repr

/-- A row of the `answers` table, fields as in the migration and the
`Answer` interface of the question detail page. -/
structure Answer where
  id : String
  question_id : String
  content : String
  author_name : String
  user_id : Option String
  created_at : Nat
  votes : Option Int
  is_accepted : Option Bool
deriving DecidableEq, Repr

/-- The remote store: the two tables the page mutations touch. -/
structure Store where
  questions : List Question
  answers : List Answer
deriving DecidableEq, Repr

/-- An authenticated session user as the pages use it (`user.id`,
`user.email`). -/
structure SessionUser where
  id : String
  email : Option String
deriving DecidableEq, Repr

/-- JavaScript `String.prototype.trim()`: drop whitespace from both ends.
Written over the string's character list so that it reduces in the kernel. -/
def jsTrim (s : String) : String :=
  ⟨((s.data.dropWhile Char.isWhitespace).reverse.dropWhile Char.isWhitespace).reverse⟩

/-- The author name computed by `submitAnswerMutation`: the part of the
session email before the at sign, or Anonymous when the email is absent or
that part is empty. -/
def authorNameOf (u : SessionUser) : String :=
  match u.email with
  | none => "Anonymous"
  | some e =>
    let first := (e.splitOn "@").headD ""
    if first = "" then "Anonymous" else first

/-- The server-side parameters accumulated on the supabase query by
`HomePage`: an optional equality filter on `has_accepted_answer` and an
optional ordering `(column, ascending)`. -/
structure QuestionsQuery where
  acceptedFilterEq : Option Bool
  order : Option (String × Bool)
deriving DecidableEq, Repr

/-- The query construction in the query function of `HomePage`: first the filter
if-chain on `filterBy`, then the ordering if-chain on `sortBy`. -/
def buildQuestionsQuery (sortBy filterBy : String) : QuestionsQuery :=
  let q0 : QuestionsQuery := { acceptedFilterEq := none, order := none }
  let q1 :=
    if filterBy = "unanswered" then { q0 with acceptedFilterEq := some false }
    else if filterBy = "answered" then { q0 with acceptedFilterEq := some true }
    else q0
  if sortBy = "newest" then { q1 with order := some ("created_at", false) }
  else if sortBy = "oldest" then { q1 with order := some ("created_at", true) }
  else if sortBy = "votes" then { q1 with order := some ("votes", false) }
  else q1

/-- The three sort options of the listing page's sort select control. -/
inductive SortChoice where
  | newest
  | oldest
  | mostVotes
deriving DecidableEq, Repr

/-- The three filter options of the listing page's filter select control. -/
inductive FilterChoice where
  | all
  | unanswered
  | answered
deriving DecidableEq, Repr

/-- The `value` attached to each sort `SelectItem` in `HomePage` ("Most
Votes" carries the value "votes"). -/
def SortChoice.value : SortChoice → String
  | .newest => "newest"
  | .oldest => "oldest"
  | .mostVotes => "votes"

/-- The `value` attached to each filter `SelectItem` in `HomePage`. -/
def FilterChoice.value : FilterChoice → String
  | .all => "all"
  | .unanswered => "unanswered"
  | .answered => "answered"

/-- Modelled from the claim's words, for comparison with
`buildQuestionsQuery`: newest orders by created time descending, oldest by
created time ascending, most-votes by vote count descending; answered
restricts to accepted-answer flag true, unanswered to flag false, all applies
no filter. The `Bool` of `order` is the ascending flag, so descending is
`false`. -/
def specListingQuery (s : SortChoice) (f : FilterChoice) : QuestionsQuery :=
  { acceptedFilterEq :=
      match f with
      | .all => none
      | .answered => some true
      | .unanswered => some false,
    order :=
      match s with
      | .newest => some ("created_at", false)
      | .oldest => some ("created_at", true)
      | .mostVotes => some ("votes", false) }

/-- The stats column rendered for each question card in the home-page
listing: `{question.votes || 0}` votes, the literal `0` answers, and
`{question.views || 0}` views. -/
structure QuestionCardStats where
  votesShown : Int
  answersShown : Nat
  viewsShown : Int
deriving DecidableEq, Repr

/-- The stats block of a question card in the listing of `HomePage`, translated
from the JSX: the answers figure is the literal `0`. -/
def renderQuestionCardStats (q : Question) : QuestionCardStats :=
  { votesShown := q.votes.getD 0
    answersShown := 0
    viewsShown := q.views.getD 0 }

/-- Outcome of `handleSubmit` on the ask-question form, one constructor per
toast the handler can raise. -/
inductive SubmitOutcome where
  | titleRequired
  | descriptionRequired
  | tagsRequired
  | posted
deriving DecidableEq, Repr

/-- The toast title shown for each `handleSubmit` outcome, copied from the
`toast` calls of the handler. -/
def submitToastTitle : SubmitOutcome → String
  | .titleRequired => "Title required"
  | .descriptionRequired => "Description required"
  | .tagsRequired => "Tags required"
  | .posted => "Question posted!"

/-- Where the app navigates after a handler finishes. -/
inductive NavTarget where
  | home
  | questionDetail (qid : String)
deriving DecidableEq, Repr

/-- The `handleSubmit` handler of `AskQuestionPage`: reject a blank (after trim) title,
then a blank description, then an empty tag list, each with its toast and no
navigation; otherwise toast success and `navigate("/")`. The handler makes no
backend call, so the store passes through unchanged on every path. -/
def handleSubmit (title description : String) (tags : List String) (s : Store) :
    SubmitOutcome × Option NavTarget × Store :=
  if jsTrim title = "" then (.titleRequired, none, s)
  else if jsTrim description = "" then (.descriptionRequired, none, s)
  else if tags.length = 0 then (.tagsRequired, none, s)
  else (.posted, some .home, s)

/-- State of the tag input on the ask-question form: the added tags and the
text currently in the tag input. -/
structure TagFormState where
  tags : List String
  currentTag : String
deriving DecidableEq, Repr

/-- The `handleAddTag` handler of `AskQuestionPage`: on Enter with a non-blank input,
append the trimmed tag unless already present and clear the input; otherwise
do nothing. -/
def handleAddTag (st : TagFormState) (key : String) : TagFormState :=
  if key = "Enter" ∧ jsTrim st.currentTag ≠ "" then
    { tags :=
        if st.tags.contains (jsTrim st.currentTag) then st.tags
        else st.tags ++ [jsTrim st.currentTag]
      currentTag := "" }
  else st

/-- The onClick of a suggested-tag badge in `AskQuestionPage`: append the
tag unless already present. -/
def suggestedTagClick (st : TagFormState) (tag : String) : TagFormState :=
  { st with
    tags := if st.tags.contains tag then st.tags else st.tags ++ [tag] }

/-- A user interaction with the tag input of the ask-question form. -/
inductive TagEvent where
  | typeTag (text : String)
  | enterKey
  | clickSuggested (tag : String)
deriving DecidableEq, Repr

/-- One tag interaction: typing sets `currentTag`, Enter runs
`handleAddTag`, clicking a suggested badge runs its onClick. -/
def tagStep (st : TagFormState) : TagEvent → TagFormState
  | .typeTag text => { st with currentTag := text }
  | .enterKey => handleAddTag st "Enter"
  | .clickSuggested tag => suggestedTagClick st tag

/-- Run a sequence of tag interactions from a form state. -/
def runTagEvents (st : TagFormState) (evs : List TagEvent) : TagFormState :=
  evs.foldl tagStep st

/-- One row of the first accept write: set is_accepted false where the
question_id column equals qid. -/
def unacceptRow (qid : String) (a : Answer) : Answer :=
  if a.question_id = qid then { a with is_accepted := some false } else a

/-- One row of the second accept write: set is_accepted true where the id
column equals aid. -/
def acceptRow (aid : String) (a : Answer) : Answer :=
  if a.id = aid then { a with is_accepted := some true } else a

/-- One row of the vote write: set votes to the new count where the id
column equals aid. -/
def voteRow (aid : String) (newVotes : Int) (a : Answer) : Answer :=
  if a.id = aid then { a with votes := some newVotes } else a

/-- One row of the third accept write: set has_accepted_answer true where
the id column equals qid. -/
def markQuestionRow (qid : String) (q : Question) : Question :=
  if q.id = qid then { q with has_accepted_answer := some true } else q

/-- First write of `acceptAnswerMutation`: unaccept all answers of the
question. -/
def unacceptAll (s : Store) (qid : String) : Store :=
  { s with answers := s.answers.map (unacceptRow qid) }

/-- Second write of `acceptAnswerMutation`: accept the selected answer. -/
def acceptOne (s : Store) (aid : String) : Store :=
  { s with answers := s.answers.map (acceptRow aid) }

/-- Third write of `acceptAnswerMutation`: mark the question as having an
accepted answer. -/
def markQuestionAccepted (s : Store) (qid : String) : Store :=
  { s with questions := s.questions.map (markQuestionRow qid) }

/-- The three sequential writes of `acceptAnswerMutation`, all succeeding:
unaccept every answer of question `qid`, accept answer `aid`, set the
question's flag. -/
def acceptAnswerWrites (s : Store) (qid aid : String) : Store :=
  markQuestionAccepted (acceptOne (unacceptAll s qid) aid) qid

/-- The mutation body of `acceptAnswerMutation`: throw before any write unless a
user is logged in, the question is loaded, and `question.user_id` equals
`user.id`; otherwise run the three writes. The result pairs the store after
the call with the thrown error message, if any. -/
def acceptAnswerMutationRun (user : Option SessionUser) (question : Option Question)
    (qid aid : String) (s : Store) : Store × Option String :=
  match user, question with
  | none, _ => (s, some "User must be logged in and own the question")
  | some _, none => (s, some "User must be logged in and own the question")
  | some u, some q =>
    if q.user_id ≠ some u.id then (s, some "Only question owner can accept answers")
    else (acceptAnswerWrites s qid aid, none)

/-- The row `submitAnswerMutation` inserts (author from the session user's
email), completed with the migration's column defaults. -/
def submitAnswerInsert (s : Store) (newId content qid : String)
    (u : SessionUser) (ts : Nat) : Store :=
  { s with
    answers := s.answers ++
      [{ id := newId
         question_id := qid
         content := content
         author_name := authorNameOf u
         user_id := some u.id
         created_at := ts
         votes := some 0
         is_accepted := some false }] }

/-- The mutation body of `submitAnswerMutation`: throw unless a user is logged in
and a question id is present; otherwise insert the answer row. -/
def submitAnswerMutationRun (user : Option SessionUser) (qid : Option String)
    (newId content : String) (ts : Nat) (s : Store) : Store × Option String :=
  match user, qid with
  | none, _ => (s, some "User must be logged in")
  | some _, none => (s, some "User must be logged in")
  | some u, some q => (submitAnswerInsert s newId content q u ts, none)

/-- The mutation body of `voteAnswerMutation`: throw unless logged in, look the
answer up in the cached `answers` query result, throw if absent, else write
`(answer.votes || 0) + increment` to the row with that id. -/
def voteAnswerMutationRun (user : Option SessionUser)
    (cachedAnswers : Option (List Answer)) (aid : String) (inc : Int)
    (s : Store) : Store × Option String :=
  match user with
  | none => (s, some "User must be logged in")
  | some _ =>
    match (cachedAnswers.getD []).find? (fun a => a.id == aid) with
    | none => (s, some "Answer not found")
    | some answer =>
      ({ s with answers := s.answers.map (voteRow aid (answer.votes.getD 0 + inc)) },
       none)

/-- Outcome of `handleSubmitAnswer`, one constructor per toast path. -/
inductive AnswerSubmitOutcome where
  | loginRequired
  | answerRequired
  | submitted
  | errorPosting
deriving DecidableEq, Repr

/-- The toast title for each `handleSubmitAnswer` outcome, copied from the
handler and the mutation callbacks. -/
def answerToastTitle : AnswerSubmitOutcome → String
  | .loginRequired => "Login required"
  | .answerRequired => "Answer required"
  | .submitted => "Answer posted!"
  | .errorPosting => "Error posting answer"

/-- The `handleSubmitAnswer` handler: with no user, toast "Login required" and return
before the mutation; with a blank answer, toast "Answer required"; otherwise
run `submitAnswerMutation` on the answer text. -/
def handleSubmitAnswerRun (user : Option SessionUser) (qid : Option String)
    (newAnswer newId : String) (ts : Nat) (s : Store) :
    AnswerSubmitOutcome × Store :=
  match user with
  | none => (.loginRequired, s)
  | some u =>
    if jsTrim newAnswer = "" then (.answerRequired, s)
    else
      match submitAnswerMutationRun (some u) qid newId newAnswer ts s with
      | (s2, none) => (.submitted, s2)
      | (s2, some _) => (.errorPosting, s2)

/-- A sample question owned by user "u1". -/
def questionQ1 : Question :=
  { id := "q1"
    title := "How to combine two columns"
    description := "details"
    tags := some ["SQL"]
    author_name := "john_doe"
    user_id := some "u1"
    created_at := 10
    votes := some 5
    views := some 24
    has_accepted_answer := some false }

/-- A sample answer to `questionQ1`, currently accepted. -/
def answerA1 : Answer :=
  { id := "a1"
    question_id := "q1"
    content := "Use CONCAT"
    author_name := "sql_expert"
    user_id := some "u2"
    created_at := 11
    votes := some 2
    is_accepted := some true }

/-- A second sample answer to `questionQ1`, not accepted. -/
def answerA2 : Answer :=
  { id := "a2"
    question_id := "q1"
    content := "Use a concatenation operator"
    author_name := "db_master"
    user_id := some "u3"
    created_at := 12
    votes := some 0
    is_accepted := some false }

/-- A sample store holding the question and its two answers. -/
def sampleStore : Store :=
  { questions := [questionQ1], answers := [answerA1, answerA2] }

/-- The session user owning `questionQ1`. -/
def ownerUser : SessionUser := { id := "u1", email := some "john@example.com" }

/-- A session user who does not own `questionQ1`. -/
def strangerUser : SessionUser := { id := "u9", email := some "eve@example.com" }

/-- The on-mount view-count write of the question detail page:
update the views column to the cached fetched count plus one on the row
whose id matches. -/
def incrementViews (s : Store) (qid : String) (cachedViews : Option Int) : Store :=
  { s with
    questions := s.questions.map fun q =>
      if q.id = qid then { q with views := some (cachedViews.getD 0 + 1) } else q }

/-- How many answers of question `qid` carry `is_accepted = true`. -/
def acceptedCountFor : List Answer → String → Nat
  | [], _ => 0
  | a :: t, qid =>
    (if a.question_id = qid ∧ a.is_accepted = some true then 1 else 0) +
      acceptedCountFor t qid

/-- The invariant of the data model: every question has at most one accepted
answer. -/
def atMostOneAccepted (s : Store) : Prop :=
  ∀ qid : String, acceptedCountFor s.answers qid ≤ 1

/-- How many rows of the answers table carry a given id. -/
def idCount : List Answer → String → Nat
  | [], _ => 0
  | a :: t, aid => (if a.id = aid then 1 else 0) + idCount t aid

/-! ## Theorems: claims C1 to C10 and their supporting lemmas -/

/-- C9: for every sort/filter combination chosen on the listing page, the
question query applies exactly the corresponding server-side parameters:
newest orders by created time descending, oldest ascending, most-votes by
vote count descending; answered filters the accepted-answer flag to true,
unanswered to false, and all applies no filter. -/
theorem listing_query_matches_spec (s : SortChoice) (f : FilterChoice) :
    buildQuestionsQuery s.value f.value = specListingQuery s f := by
  cases s <;> cases f <;> rfl

/-- C10: every question card in the home-page listing displays the constant
answer count 0, regardless of the question row and of how many answers the
question actually has in the store. -/
theorem home_answer_count_always_zero (q : Question) (actualAnswers : List Answer) :
    (renderQuestionCardStats q).answersShown = 0 := rfl

/-- C3 counterexample: a submission with non-empty trimmed title "t" and
non-empty trimmed description "d" but no tags is rejected with the "Tags
required" toast, stays on the form, and leaves the question table unchanged —
so it is false that every such submission creates one question row and
navigates to its detail page. -/
theorem askSubmit_claim_counterexample :
    jsTrim "t" ≠ "" ∧ jsTrim "d" ≠ "" ∧
      handleSubmit "t" "d" [] { questions := [], answers := [] } =
        (.tagsRequired, none, { questions := [], answers := [] }) ∧
      submitToastTitle .tagsRequired = "Tags required" := by
  refine ⟨by decide, by decide, ?_, rfl⟩
  rfl

/-- C3 amended: a submission with non-empty trimmed title, non-empty trimmed
description and at least one tag shows the success toast and navigates to the
home page; no question row is created by this form revision, whose handler
never writes to the store. -/
theorem askSubmit_valid_behaviour (title description : String)
    (tags : List String) (s : Store)
    (ht : jsTrim title ≠ "") (hd : jsTrim description ≠ "") (htags : tags ≠ []) :
    handleSubmit title description tags s = (.posted, some .home, s) ∧
      (handleSubmit title description tags s).2.2.questions = s.questions := by
  have hlen : ¬ tags.length = 0 := by
    simpa [List.length_eq_zero] using htags
  unfold handleSubmit
  rw [if_neg ht, if_neg hd, if_neg hlen]
  exact ⟨rfl, rfl⟩

/-- Witness for the amended C3 at a concrete submission. -/
theorem askSubmit_valid_behaviour_witness :
    jsTrim "How" ≠ "" ∧ jsTrim "I tried X" ≠ "" ∧ (["SQL"] : List String) ≠ [] ∧
      handleSubmit "How" "I tried X" ["SQL"] { questions := [], answers := [] } =
        (.posted, some .home, { questions := [], answers := [] }) := by
  refine ⟨by decide, by decide, by decide, ?_⟩
  exact (askSubmit_valid_behaviour "How" "I tried X" ["SQL"]
    { questions := [], answers := [] } (by decide) (by decide) (by decide)).1

/-- C8 counterexample: with valid title "a" and description "b" and an empty
tag list, the submission is rejected (outcome `tagsRequired`, toast "Tags
required", no success), so tags are in fact required by this form. -/
theorem emptyTags_rejected_counterexample :
    jsTrim "a" ≠ "" ∧ jsTrim "b" ≠ "" ∧
      (handleSubmit "a" "b" [] { questions := [], answers := [] }).1 = .tagsRequired ∧
      (handleSubmit "a" "b" [] { questions := [], answers := [] }).1 ≠ .posted ∧
      submitToastTitle .tagsRequired = "Tags required" := by
  exact ⟨by decide, by decide, rfl, by decide, rfl⟩

/-- C8 amended: every submission with non-empty trimmed title and description
but an empty tags list is rejected with the "Tags required" toast, does not
navigate, and writes nothing to the store: at least one tag is required. -/
theorem emptyTags_submission_rejected (title description : String) (s : Store)
    (ht : jsTrim title ≠ "") (hd : jsTrim description ≠ "") :
    handleSubmit title description [] s = (.tagsRequired, none, s) ∧
      submitToastTitle .tagsRequired = "Tags required" := by
  unfold handleSubmit
  rw [if_neg ht, if_neg hd]
  exact ⟨rfl, rfl⟩

/-- Witness for the amended C8 at a concrete submission. -/
theorem emptyTags_submission_rejected_witness :
    jsTrim "q" ≠ "" ∧ jsTrim "body" ≠ "" ∧
      handleSubmit "q" "body" [] { questions := [], answers := [] } =
        (.tagsRequired, none, { questions := [], answers := [] }) := by
  refine ⟨by decide, by decide, ?_⟩
  exact (emptyTags_submission_rejected "q" "body"
    { questions := [], answers := [] } (by decide) (by decide)).1

/-- C7: the ask-question form's own label says "Add up to 5 tags", but
neither `handleAddTag` nor the suggested-tag onClick checks the list length:
six Enter-key additions of six distinct non-blank tags leave the tags list at
length 6, exceeding the documented cap of 5. -/
theorem tag_cap_exceeded_bug :
    (runTagEvents { tags := [], currentTag := "" }
        [.typeTag "t1", .enterKey, .typeTag "t2", .enterKey,
         .typeTag "t3", .enterKey, .typeTag "t4", .enterKey,
         .typeTag "t5", .enterKey, .typeTag "t6", .enterKey]).tags =
      ["t1", "t2", "t3", "t4", "t5", "t6"] ∧
    (runTagEvents { tags := [], currentTag := "" }
        [.typeTag "t1", .enterKey, .typeTag "t2", .enterKey,
         .typeTag "t3", .enterKey, .typeTag "t4", .enterKey,
         .typeTag "t5", .enterKey, .typeTag "t6", .enterKey]).tags.length = 6 := by
  exact ⟨by decide, by decide⟩

/-- C6: an attempt to post an answer with no authenticated session is
rejected with the "Login required" toast before the mutation runs, and no
answer row is written: the store is returned unchanged. -/
theorem unauthenticated_answer_rejected (qid : Option String)
    (newAnswer newId : String) (ts : Nat) (s : Store) :
    handleSubmitAnswerRun none qid newAnswer newId ts s = (.loginRequired, s) ∧
      answerToastTitle .loginRequired = "Login required" ∧
      (handleSubmitAnswerRun none qid newAnswer newId ts s).2.answers = s.answers := by
  exact ⟨rfl, rfl, rfl⟩

/-- C5: `acceptAnswerMutation` succeeds only when the requester's user id
equals the question's owning user id; a logged-in requester who is not the
owner gets the "Only question owner can accept answers" error thrown before
any write, so the store — in particular every accepted flag — is unchanged. -/
theorem acceptAnswer_requires_owner (user : Option SessionUser)
    (question : Option Question) (qid aid : String) (s : Store) :
    ((acceptAnswerMutationRun user question qid aid s).2 = none →
      ∃ u q, user = some u ∧ question = some q ∧ q.user_id = some u.id) ∧
    (∀ u q, user = some u → question = some q → q.user_id ≠ some u.id →
      acceptAnswerMutationRun user question qid aid s =
        (s, some "Only question owner can accept answers")) := by
  constructor
  · intro h
    cases user with
    | none => simp [acceptAnswerMutationRun] at h
    | some u =>
      cases question with
      | none => simp [acceptAnswerMutationRun] at h
      | some q =>
        by_cases hid : q.user_id = some u.id
        · exact ⟨u, q, rfl, rfl, hid⟩
        · simp [acceptAnswerMutationRun, hid] at h
  · intro u q hu hq hne
    subst hu
    subst hq
    simp [acceptAnswerMutationRun, hne]

/-- Witness for C5: the non-owner "u9" is rejected on `sampleStore` and the
store is unchanged. -/
theorem acceptAnswer_requires_owner_witness :
    questionQ1.user_id ≠ some strangerUser.id ∧
      acceptAnswerMutationRun (some strangerUser) (some questionQ1) "q1" "a2" sampleStore =
        (sampleStore, some "Only question owner can accept answers") := by
  refine ⟨by decide, ?_⟩
  exact (acceptAnswer_requires_owner (some strangerUser) (some questionQ1) "q1" "a2"
    sampleStore).2 strangerUser questionQ1 rfl rfl (by decide)

/-- The two answer-table writes of the accept flow compose, row by row, to:
accept the chosen answer, unaccept every other answer of the question, leave
the rest alone. -/
theorem acceptRow_unacceptRow (qid aid : String) (a : Answer) :
    acceptRow aid (unacceptRow qid a) =
      if a.id = aid then { a with is_accepted := some true }
      else if a.question_id = qid then { a with is_accepted := some false }
      else a := by
  unfold acceptRow unacceptRow
  by_cases h1 : a.question_id = qid <;> by_cases h2 : a.id = aid <;> simp [h1, h2]

/-- The answers table after the three accept writes is the row-wise image of
the two answer updates. -/
theorem acceptAnswerWrites_answers (s : Store) (qid aid : String) :
    (acceptAnswerWrites s qid aid).answers =
      s.answers.map (fun a => acceptRow aid (unacceptRow qid a)) := by
  simp [acceptAnswerWrites, markQuestionAccepted, acceptOne, unacceptAll, List.map_map,
    Function.comp]

/-- The questions table after the three accept writes is the row-wise image
of the flag update. -/
theorem acceptAnswerWrites_questions (s : Store) (qid aid : String) :
    (acceptAnswerWrites s qid aid).questions = s.questions.map (markQuestionRow qid) := rfl

/-- C1: when the question's owner accepts answer B of a question whose only
accepted answer was A, and all three writes succeed, afterwards an answer of
the question is accepted exactly when it is B: B's row is accepted, A's row
is unaccepted, and the question's accepted-answer flag is true. -/
theorem acceptAnswer_switches_accepted (s : Store) (u : SessionUser)
    (qid : String) (q : Question) (A B : Answer)
    (hq : q ∈ s.questions) (hqid : q.id = qid) (howner : q.user_id = some u.id)
    (hA : A ∈ s.answers) (hB : B ∈ s.answers)
    (hAq : A.question_id = qid) (hBq : B.question_id = qid)
    (hAB : A.id ≠ B.id) (hAacc : A.is_accepted = some true)
    (honly : ∀ a ∈ s.answers, a.question_id = qid → a.is_accepted = some true →
      a.id = A.id) :
    acceptAnswerMutationRun (some u) (some q) qid B.id s =
        (acceptAnswerWrites s qid B.id, none) ∧
      (∀ a ∈ (acceptAnswerWrites s qid B.id).answers, a.question_id = qid →
        (a.is_accepted = some true ↔ a.id = B.id)) ∧
      { B with is_accepted := some true } ∈ (acceptAnswerWrites s qid B.id).answers ∧
      { A with is_accepted := some false } ∈ (acceptAnswerWrites s qid B.id).answers ∧
      (∀ q2 ∈ (acceptAnswerWrites s qid B.id).questions, q2.id = qid →
        q2.has_accepted_answer = some true) ∧
      { q with has_accepted_answer := some true } ∈
        (acceptAnswerWrites s qid B.id).questions := by
  refine ⟨?_, ?_, ?_, ?_, ?_, ?_⟩
  · simp [acceptAnswerMutationRun, howner]
  · rw [acceptAnswerWrites_answers]
    intro a ha haq
    rw [List.mem_map] at ha
    obtain ⟨x, hx, rfl⟩ := ha
    rw [acceptRow_unacceptRow] at haq ⊢
    by_cases hxB : x.id = B.id
    · simp [hxB]
    · by_cases hq2 : x.question_id = qid <;> simp [hxB, hq2] at haq ⊢
  · rw [acceptAnswerWrites_answers, List.mem_map]
    refine ⟨B, hB, ?_⟩
    rw [acceptRow_unacceptRow]
    simp
  · rw [acceptAnswerWrites_answers, List.mem_map]
    refine ⟨A, hA, ?_⟩
    rw [acceptRow_unacceptRow]
    simp [hAB, hAq]
  · rw [acceptAnswerWrites_questions]
    intro q2 hq2 hid
    rw [List.mem_map] at hq2
    obtain ⟨x, hx, rfl⟩ := hq2
    unfold markQuestionRow at hid ⊢
    by_cases hxq : x.id = qid <;> simp [hxq] at hid ⊢
  · rw [acceptAnswerWrites_questions, List.mem_map]
    refine ⟨q, hq, ?_⟩
    simp [markQuestionRow, hqid]

/-- Witness for C1: the owner of `questionQ1` accepts answer "a2" while "a1"
is the accepted one; afterwards "a2" is accepted and "a1" is not. -/
theorem acceptAnswer_switches_accepted_witness :
    answerA1.is_accepted = some true ∧ answerA1.id ≠ answerA2.id ∧
      { answerA2 with is_accepted := some true } ∈
        (acceptAnswerWrites sampleStore "q1" answerA2.id).answers ∧
      { answerA1 with is_accepted := some false } ∈
        (acceptAnswerWrites sampleStore "q1" answerA2.id).answers ∧
      { questionQ1 with has_accepted_answer := some true } ∈
        (acceptAnswerWrites sampleStore "q1" answerA2.id).questions := by
  refine ⟨rfl, by decide, ?_, ?_, ?_⟩
  · exact (acceptAnswer_switches_accepted sampleStore ownerUser "q1" questionQ1
      answerA1 answerA2 (by decide) rfl rfl (by decide) (by decide) rfl rfl
      (by decide) rfl (by decide)).2.2.1
  · exact (acceptAnswer_switches_accepted sampleStore ownerUser "q1" questionQ1
      answerA1 answerA2 (by decide) rfl rfl (by decide) (by decide) rfl rfl
      (by decide) rfl (by decide)).2.2.2.1
  · exact (acceptAnswer_switches_accepted sampleStore ownerUser "q1" questionQ1
      answerA1 answerA2 (by decide) rfl rfl (by decide) (by decide) rfl rfl
      (by decide) rfl (by decide)).2.2.2.2.2

/-- A vote write never changes a row's id. -/
theorem voteRow_id (aid : String) (nv : Int) (a : Answer) :
    (voteRow aid nv a).id = a.id := by
  unfold voteRow
  split <;> rfl

/-- Searching the answers table by id commutes with a vote write. -/
theorem find?_voteRow_map (aid : String) (nv : Int) (l : List Answer) :
    (l.map (voteRow aid nv)).find? (fun a => a.id == aid) =
      (l.find? (fun a => a.id == aid)).map (voteRow aid nv) := by
  have hp : ((fun a => a.id == aid) ∘ voteRow aid nv) = (fun a => a.id == aid) := by
    funext a
    simp [Function.comp, voteRow_id]
  rw [List.find?_map, hp]

/-- Refolding a record whose votes field already holds the given value. -/
theorem votes_update_self (a : Answer) (v : Int) (h : a.votes = some v) :
    ({ a with votes := some v } : Answer) = a := by
  rcases a with ⟨i, qd, c, an, ui, ca, vo, ia⟩
  have h2 : vo = some v := h
  subst h2
  rfl

/-- C4: with an authenticated user, an upvote (+1) on an answer holding vote
count v followed, after the refetch, by a downvote (-1), with both writes
succeeding and no interference, leaves the answer row exactly as it
originally was — vote count v. -/
theorem vote_up_then_down_restores (s : Store) (u : SessionUser) (aid : String)
    (a0 : Answer) (v : Int)
    (hfind : s.answers.find? (fun a => a.id == aid) = some a0)
    (hv : a0.votes = some v) :
    ∃ s1 s2,
      voteAnswerMutationRun (some u) (some s.answers) aid 1 s = (s1, none) ∧
      voteAnswerMutationRun (some u) (some s1.answers) aid (-1) s1 = (s2, none) ∧
      s2.answers.find? (fun a => a.id == aid) = some a0 := by
  have hid : a0.id = aid := by
    have hp := List.find?_some hfind
    simpa using hp
  refine ⟨{ s with answers := s.answers.map (voteRow aid (v + 1)) },
    { s with answers :=
        (s.answers.map (voteRow aid (v + 1))).map (voteRow aid (v + 1 + -1)) },
    ?_, ?_, ?_⟩
  · simp [voteAnswerMutationRun, hfind, hv]
  · have hf1 : (s.answers.map (voteRow aid (v + 1))).find? (fun a => a.id == aid) =
        some { a0 with votes := some (v + 1) } := by
      rw [find?_voteRow_map, hfind]
      simp [voteRow, hid]
    simp [voteAnswerMutationRun, hf1]
  · have hvv : v + 1 + -1 = v := by omega
    have h1 : voteRow aid (v + 1) a0 = { a0 with votes := some (v + 1) } := by
      unfold voteRow
      rw [if_pos hid]
    have h2 : voteRow aid v { a0 with votes := some (v + 1) } =
        { a0 with votes := some v } := by
      simp [voteRow, hid]
    rw [find?_voteRow_map, find?_voteRow_map, hfind, hvv]
    show some (voteRow aid v (voteRow aid (v + 1) a0)) = some a0
    rw [h1, h2, votes_update_self a0 v hv]

/-- Witness for C4: voting "a1" up then down on `sampleStore` returns its
row to `answerA1` with its original 2 votes. -/
theorem vote_up_then_down_restores_witness :
    sampleStore.answers.find? (fun a => a.id == "a1") = some answerA1 ∧
      answerA1.votes = some 2 ∧
      ∃ s1 s2,
        voteAnswerMutationRun (some strangerUser) (some sampleStore.answers) "a1" 1
          sampleStore = (s1, none) ∧
        voteAnswerMutationRun (some strangerUser) (some s1.answers) "a1" (-1) s1 =
          (s2, none) ∧
        s2.answers.find? (fun a => a.id == "a1") = some answerA1 := by
  refine ⟨by decide, rfl, ?_⟩
  exact vote_up_then_down_restores sampleStore strangerUser "a1" answerA1 2
    (by decide) rfl

/-- Accepted-answer counting distributes over table append. -/
theorem acceptedCountFor_append (l1 l2 : List Answer) (qid : String) :
    acceptedCountFor (l1 ++ l2) qid =
      acceptedCountFor l1 qid + acceptedCountFor l2 qid := by
  induction l1 with
  | nil => simp [acceptedCountFor]
  | cons a t ih => simp [acceptedCountFor, ih, Nat.add_assoc]

/-- A vote write never changes a row's question reference. -/
theorem voteRow_question_id (aid : String) (nv : Int) (a : Answer) :
    (voteRow aid nv a).question_id = a.question_id := by
  unfold voteRow
  split <;> rfl

/-- A vote write never changes a row's accepted flag. -/
theorem voteRow_is_accepted (aid : String) (nv : Int) (a : Answer) :
    (voteRow aid nv a).is_accepted = a.is_accepted := by
  unfold voteRow
  split <;> rfl

/-- A vote write leaves every question's accepted-answer count unchanged. -/
theorem acceptedCountFor_voteRow (aid : String) (nv : Int) (qid : String) :
    ∀ l : List Answer,
      acceptedCountFor (l.map (voteRow aid nv)) qid = acceptedCountFor l qid
  | [] => rfl
  | a :: t => by
    simp [acceptedCountFor, voteRow_question_id, voteRow_is_accepted,
      acceptedCountFor_voteRow aid nv qid t]

/-- The accept-flow answer writes never change a row's question reference. -/
theorem acceptStep_question_id (qid aid : String) (a : Answer) :
    (acceptRow aid (unacceptRow qid a)).question_id = a.question_id := by
  by_cases h2 : a.id = aid
  · rw [acceptRow_unacceptRow, if_pos h2]
  · rw [acceptRow_unacceptRow, if_neg h2]
    by_cases h1 : a.question_id = qid
    · rw [if_pos h1]
    · rw [if_neg h1]

/-- The accepted flag a row carries after the accept-flow answer writes. -/
theorem acceptStep_is_accepted (qid aid : String) (a : Answer) :
    (acceptRow aid (unacceptRow qid a)).is_accepted =
      if a.id = aid then some true
      else if a.question_id = qid then some false else a.is_accepted := by
  by_cases h2 : a.id = aid
  · rw [acceptRow_unacceptRow, if_pos h2, if_pos h2]
  · rw [acceptRow_unacceptRow, if_neg h2, if_neg h2]
    by_cases h1 : a.question_id = qid
    · rw [if_pos h1, if_pos h1]
    · rw [if_neg h1, if_neg h1]

/-- After the two answer writes of the accept flow, the accepted rows of the
question are among the rows with the chosen id. -/
theorem acceptedCountFor_accept_le (qid aid : String) :
    ∀ l : List Answer,
      acceptedCountFor (l.map fun a => acceptRow aid (unacceptRow qid a)) qid ≤
        idCount l aid
  | [] => Nat.le_refl 0
  | a :: t => by
    have ih := acceptedCountFor_accept_le qid aid t
    rw [List.map_cons]
    show (if (acceptRow aid (unacceptRow qid a)).question_id = qid ∧
            (acceptRow aid (unacceptRow qid a)).is_accepted = some true
          then 1 else 0) +
          acceptedCountFor (t.map fun x => acceptRow aid (unacceptRow qid x)) qid ≤
        (if a.id = aid then 1 else 0) + idCount t aid
    refine Nat.add_le_add ?_ ih
    rw [acceptStep_question_id, acceptStep_is_accepted]
    by_cases h2 : a.id = aid
    · rw [if_pos h2, if_pos h2]
      split <;> omega
    · rw [if_neg h2, if_neg h2]
      by_cases h1 : a.question_id = qid
      · rw [if_pos h1, if_neg (by simp)]
      · rw [if_neg h1, if_neg (fun hc => h1 hc.1)]

/-- When the accepted id belongs to question `qid`, the accept writes leave
every other question's accepted-answer count unchanged. -/
theorem acceptedCountFor_accept_other (qid aid q2 : String) (hne : q2 ≠ qid) :
    ∀ l : List Answer, (∀ a ∈ l, a.id = aid → a.question_id = qid) →
      acceptedCountFor (l.map fun a => acceptRow aid (unacceptRow qid a)) q2 =
        acceptedCountFor l q2
  | [], _ => rfl
  | a :: t, hb => by
    have ih := acceptedCountFor_accept_other qid aid q2 hne t
      (fun x hx => hb x (List.mem_cons_of_mem a hx))
    have hba := hb a (List.mem_cons_self a t)
    rw [List.map_cons]
    show (if (acceptRow aid (unacceptRow qid a)).question_id = q2 ∧
            (acceptRow aid (unacceptRow qid a)).is_accepted = some true
          then 1 else 0) +
          acceptedCountFor (t.map fun x => acceptRow aid (unacceptRow qid x)) q2 =
        (if a.question_id = q2 ∧ a.is_accepted = some true then 1 else 0) +
          acceptedCountFor t q2
    rw [acceptStep_question_id, acceptStep_is_accepted, ih]
    by_cases h2 : a.id = aid
    · have hnq2 : a.question_id ≠ q2 := by
        rw [hba h2]
        exact fun h => hne h.symm
      rw [if_pos h2, if_neg (fun hc => hnq2 hc.1), if_neg (fun hc => hnq2 hc.1)]
    · rw [if_neg h2]
      by_cases h1 : a.question_id = qid
      · have hnq2 : a.question_id ≠ q2 := by
          rw [h1]
          exact fun h => hne h.symm
        rw [if_pos h1, if_neg (fun hc => hnq2 hc.1), if_neg (fun hc => hnq2 hc.1)]
      · rw [if_neg h1]

/-- A table in which no row has the given id counts zero rows for it. -/
theorem idCount_eq_zero (aid : String) :
    ∀ l : List Answer, (∀ b ∈ l, b.id ≠ aid) → idCount l aid = 0
  | [], _ => rfl
  | a :: t, h => by
    have ih := idCount_eq_zero aid t (fun b hb => h b (List.mem_cons_of_mem a hb))
    show (if a.id = aid then 1 else 0) + idCount t aid = 0
    rw [if_neg (h a (List.mem_cons_self a t)), ih]

/-- A table with pairwise distinct ids — as the primary key guarantees — has
at most one row of any id. -/
theorem idCount_le_one (l : List Answer)
    (h : l.Pairwise fun a b => a.id ≠ b.id) (aid : String) :
    idCount l aid ≤ 1 := by
  induction l with
  | nil => exact Nat.zero_le 1
  | cons a t ih =>
    rw [List.pairwise_cons] at h
    obtain ⟨ha, ht⟩ := h
    by_cases hb : a.id = aid
    · have hz : idCount t aid = 0 :=
        idCount_eq_zero aid t (fun b hbt hba => (ha b hbt) (hb.trans hba.symm))
      simp [idCount, hb, hz]
    · simp only [idCount, if_neg hb, Nat.zero_add]
      exact ih ht

/-- C2: from a store in which every question has at most one accepted
answer, each application operation — posting an answer, voting on an answer,
incrementing the view count, and the complete accept sequence — run to
completion preserves that invariant. The accept case assumes what the page
guarantees: the answers table has pairwise distinct ids (its primary key)
and the accepted id is an answer of the question being viewed. -/
theorem operations_preserve_atMostOneAccepted (s : Store)
    (hinv : atMostOneAccepted s) :
    (∀ user qid newId content ts,
      atMostOneAccepted (submitAnswerMutationRun user qid newId content ts s).1) ∧
    (∀ user cached aid inc,
      atMostOneAccepted (voteAnswerMutationRun user cached aid inc s).1) ∧
    (∀ qid cached, atMostOneAccepted (incrementViews s qid cached)) ∧
    (∀ user question qid aid,
      s.answers.Pairwise (fun a b => a.id ≠ b.id) →
      (∀ a ∈ s.answers, a.id = aid → a.question_id = qid) →
      atMostOneAccepted (acceptAnswerMutationRun user question qid aid s).1) := by
  refine ⟨?_, ?_, ?_, ?_⟩
  · intro user qid newId content ts
    cases user with
    | none => exact hinv
    | some u =>
      cases qid with
      | none => exact hinv
      | some q =>
        intro q2
        show acceptedCountFor (s.answers ++ [_]) q2 ≤ 1
        rw [acceptedCountFor_append]
        have hone : acceptedCountFor
            [{ id := newId, question_id := q, content := content,
               author_name := authorNameOf u, user_id := some u.id,
               created_at := ts, votes := some 0,
               is_accepted := some false }] q2 = 0 := by
          show (if q = q2 ∧ (some false : Option Bool) = some true then 1 else 0) + 0 = 0
          rw [if_neg (by simp)]
        rw [hone]
        simpa using hinv q2
  · intro user cached aid inc
    cases user with
    | none => exact hinv
    | some u =>
      cases hf : (cached.getD []).find? (fun a => a.id == aid) with
      | none =>
        intro q2
        show acceptedCountFor (voteAnswerMutationRun (some u) cached aid inc s).1.answers q2 ≤ 1
        rw [show (voteAnswerMutationRun (some u) cached aid inc s).1 = s by
          simp [voteAnswerMutationRun, hf]]
        exact hinv q2
      | some ans =>
        intro q2
        rw [show (voteAnswerMutationRun (some u) cached aid inc s).1 =
            { s with answers := s.answers.map (voteRow aid (ans.votes.getD 0 + inc)) } by
          simp [voteAnswerMutationRun, hf]]
        show acceptedCountFor (s.answers.map (voteRow aid (ans.votes.getD 0 + inc))) q2 ≤ 1
        rw [acceptedCountFor_voteRow]
        exact hinv q2
  · intro qid cached q2
    show acceptedCountFor s.answers q2 ≤ 1
    exact hinv q2
  · intro user question qid aid hpair hbelong
    cases user with
    | none => exact hinv
    | some u =>
      cases question with
      | none => exact hinv
      | some q =>
        by_cases hown : q.user_id = some u.id
        · rw [show (acceptAnswerMutationRun (some u) (some q) qid aid s).1 =
              acceptAnswerWrites s qid aid by
            simp [acceptAnswerMutationRun, hown]]
          intro q2
          rw [show (acceptAnswerWrites s qid aid).answers =
              s.answers.map fun a => acceptRow aid (unacceptRow qid a) from
            acceptAnswerWrites_answers s qid aid]
          by_cases hq2 : q2 = qid
          · subst hq2
            exact (acceptedCountFor_accept_le q2 aid s.answers).trans
              (idCount_le_one s.answers hpair aid)
          · rw [acceptedCountFor_accept_other qid aid q2 hq2 s.answers hbelong]
            exact hinv q2
        · rw [show (acceptAnswerMutationRun (some u) (some q) qid aid s).1 = s by
            simp [acceptAnswerMutationRun, hown]]
          exact hinv

/-- The sample store satisfies the invariant: only "a1" is accepted. -/
theorem sampleStore_atMostOne : atMostOneAccepted sampleStore := by
  intro qid
  show (if ("q1" : String) = qid ∧ (some true : Option Bool) = some true
        then 1 else 0) +
      ((if ("q1" : String) = qid ∧ (some false : Option Bool) = some true
        then 1 else 0) + 0) ≤ 1
  rw [if_neg (by simp : ¬(("q1" : String) = qid ∧ (some false : Option Bool) = some true))]
  by_cases h : ("q1" : String) = qid
  · rw [if_pos ⟨h, rfl⟩]
  · rw [if_neg (fun hc => h hc.1)]
    omega

/-- Witness for C2: the invariant holds on `sampleStore` and is preserved by
the owner's accept of answer "a2". -/
theorem operations_preserve_atMostOneAccepted_witness :
    atMostOneAccepted sampleStore ∧
      sampleStore.answers.Pairwise (fun a b => a.id ≠ b.id) ∧
      atMostOneAccepted
        (acceptAnswerMutationRun (some ownerUser) (some questionQ1) "q1" "a2"
          sampleStore).1 := by
  refine ⟨sampleStore_atMostOne, by decide, ?_⟩
  exact (operations_preserve_atMostOneAccepted sampleStore
    sampleStore_atMostOne).2.2.2 (some ownerUser) (some questionQ1) "q1" "a2"
    (by decide) (by decide)

end StackIt
